import Mathlib

/-!
Shallow embedding of the `@springrole/logger` package: a winston-based
logging facade with two observed variants of the `Logger` class.

The primary variant (`src/unnamed/part_001`) supports console/CloudWatch
transports, a Sentry binding with a traces-sampling policy, and webhook
alerts.  The older variant (`src/lib/logger.js`) supports console,
optional Loggly and CloudWatch transports.

JavaScript values that can appear in a log payload are modelled by
`JValue`; `undefined` (also standing for functions and symbols, which
`JSON.stringify` treats the same way) is the `undef` constructor.
`JSON.parse(JSON.stringify(v))` is modelled by `serialize`, and
`JSON.stringify(v, null, n)` by `jsonStringify n v`.
-/

/-- JavaScript values occurring in log payloads.  `undef` stands for
`undefined` (and for functions/symbols, which JSON serialization drops
the same way). -/
inductive JValue where
  | jnull
  | jbool (b : Bool)
  | jnum (n : Int)
  | jstr (s : String)
  | jarr (elems : List JValue)
  | jobj (fields : List (String × JValue))
  | undef

/-- Truthiness of an optional JS string argument: `undefined`/`null` and
the empty string are falsy. -/
def jsTruthy : Option String → Bool
  | none => false
  | some s => !s.isEmpty

/-- Rendering of an optional JS string inside a template literal:
`undefined` renders as the text "undefined". -/
def jsShow : Option String → String
  | none => "undefined"
  | some s => s

mutual

/-- Model of the `JSON.parse(JSON.stringify(v))` round trip: `undefined`
values serialize to nothing (`none`); object fields with such values are
dropped, array elements become `null`. -/
def serialize : JValue → Option JValue
  | .jnull => some .jnull
  | .jbool b => some (.jbool b)
  | .jnum n => some (.jnum n)
  | .jstr s => some (.jstr s)
  | .jarr l => some (.jarr (serializeArr l))
  | .jobj f => some (.jobj (serializeObj f))
  | .undef => none

/-- Array elements of the round trip: non-serializable entries become `null`. -/
def serializeArr : List JValue → List JValue
  | [] => []
  | v :: vs => ((serialize v).getD .jnull) :: serializeArr vs

/-- Object fields of the round trip: fields with non-serializable values
are dropped. -/
def serializeObj : List (String × JValue) → List (String × JValue)
  | [] => []
  | (k, v) :: rest =>
    match serialize v with
    | some w => (k, w) :: serializeObj rest
    | none => serializeObj rest

end

/-- JSON escaping of one character inside a double-quoted string. -/
def jsonEscapeChar (c : Char) : String :=
  if c = '"' then "\\\""
  else if c = '\\' then "\\\\"
  else if c = '\n' then "\\n"
  else if c = '\t' then "\\t"
  else if c = '\r' then "\\r"
  else String.mk [c]

/-- JSON escaping of a string body. -/
def jsonEscape (s : String) : String :=
  String.join (s.data.map jsonEscapeChar)

/-- A run of `n` spaces, used for JSON indentation. -/
def indentStr (n : Nat) : String :=
  String.mk (List.replicate n ' ')

/-- Join a list of strings with a separator. -/
def joinSep (sep : String) : List String → String
  | [] => ""
  | [s] => s
  | s :: rest => s ++ sep ++ joinSep sep rest

mutual

/-- Pretty printer underlying `JSON.stringify(v, null, ind)` on an
already-serialized value; `d` is the current nesting depth. -/
def prettyVal (ind d : Nat) : JValue → String
  | .jnull => "null"
  | .jbool true => "true"
  | .jbool false => "false"
  | .jnum n => toString n
  | .jstr s => "\"" ++ jsonEscape s ++ "\""
  | .jarr [] => "[]"
  | .jarr (v :: vs) =>
    "[\n" ++ joinSep ",\n" (prettyArr ind (d + 1) (v :: vs)) ++ "\n"
      ++ indentStr (ind * d) ++ "]"
  | .jobj [] => "\x7b\x7d"
  | .jobj (f :: fs) =>
    "\x7b\n" ++ joinSep ",\n" (prettyObj ind (d + 1) (f :: fs)) ++ "\n"
      ++ indentStr (ind * d) ++ "\x7d"
  | .undef => "null"

/-- Pretty-printed lines of an array's elements. -/
def prettyArr (ind d : Nat) : List JValue → List String
  | [] => []
  | v :: vs => (indentStr (ind * d) ++ prettyVal ind d v) :: prettyArr ind d vs

/-- Pretty-printed lines of an object's fields. -/
def prettyObj (ind d : Nat) : List (String × JValue) → List String
  | [] => []
  | (k, v) :: fs =>
    (indentStr (ind * d) ++ "\"" ++ jsonEscape k ++ "\": " ++ prettyVal ind d v)
      :: prettyObj ind d fs

end

/-- Model of `JSON.stringify(v, null, ind)`: serializes first (dropping
`undefined` object fields, turning `undefined` array entries into `null`),
then pretty prints with `ind`-space indentation; a top-level `undefined`
yields no string at all. -/
def jsonStringify (ind : Nat) (v : JValue) : Option String :=
  (serialize v).map (prettyVal ind 0)

/-- Model of lodash `isEmpty` on a JSON value: objects/arrays with no
entries, the empty string, and all non-collection values are empty. -/
def jsIsEmpty : JValue → Bool
  | .jobj f => f.isEmpty
  | .jarr l => l.isEmpty
  | .jstr s => s.isEmpty
  | _ => true

/-- Model of lodash `omit`: drop the listed keys from an object's fields. -/
def omitKeys (fields : List (String × JValue)) (keys : List String) :
    List (String × JValue) :=
  fields.filter (fun kv => !(keys.contains kv.1))

/-- Lookup of a property on a JS object modelled as an association list. -/
def jsGet (fields : List (String × JValue)) (k : String) : Option JValue :=
  (fields.find? (fun kv => kv.1 = k)).map (fun kv => kv.2)

mutual

/-- JS template-literal rendering of a value (`String(v)`): strings are
bare, `null`/`undefined` render as words, arrays join their elements with
commas (with `null`/`undefined` elements rendered empty), plain objects
render as "[object Object]". -/
def displayVal : JValue → String
  | .jnull => "null"
  | .jbool true => "true"
  | .jbool false => "false"
  | .jnum n => toString n
  | .jstr s => s
  | .jarr l => joinSep "," (displayArr l)
  | .jobj _ => "[object Object]"
  | .undef => "undefined"

/-- Array elements under `Array.prototype.toString`: `null` and
`undefined` entries render as the empty string. -/
def displayArr : List JValue → List String
  | [] => []
  | .jnull :: vs => "" :: displayArr vs
  | .undef :: vs => "" :: displayArr vs
  | v :: vs => displayVal v :: displayArr vs

end

/-- Template rendering of a possibly-absent object property. -/
def displayProp (v : Option JValue) : String :=
  match v with
  | none => "undefined"
  | some w => displayVal w

/-- Model of `Logger.#formatMessage(info)` (identical in both variants):
strip `timestamp`/`message`/`level` from the winston `info` object; if
what remains round-trips through JSON to an empty structure the line is
`"{timestamp} {level}: {message}"` alone, otherwise the remaining meta is
appended on a new line as 2-space-indented pretty JSON. -/
def formatMessage (info : List (String × JValue)) : String :=
  let meta := omitKeys info ["timestamp", "message", "level"]
  let base := displayProp (jsGet info "timestamp") ++ " "
    ++ displayProp (jsGet info "level") ++ ": "
    ++ displayProp (jsGet info "message")
  if jsIsEmpty ((serialize (.jobj meta)).getD .jnull) then base
  else base ++ "\n" ++ jsShow (jsonStringify 2 (.jobj meta))

/-- Error-like inputs to `Logger.error` and `Logger.#formatError`: a plain
string, an Error-like object (carrying the result of its `toString()`, an
optional `message` and an optional `stack`), or `null`/`undefined`. -/
inductive JsError where
  | str (s : String)
  | exn (toStr : String) (message : Option String) (stack : Option String)
  | nullish
deriving DecidableEq, Repr

/-- Result of `err?.toString()` rendered in a template literal. -/
def JsError.display : JsError → String
  | .str s => s
  | .exn ts _ _ => ts
  | .nullish => "undefined"

/-- Result of `err?.message`: only Error-like objects may carry one. -/
def JsError.msg : JsError → Option String
  | .exn _ m _ => m
  | _ => none

/-- Result of `err?.stack`: only Error-like objects may carry one. -/
def JsError.stackOf : JsError → Option String
  | .exn _ _ st => st
  | _ => none

/-- Model of `Logger.#formatError` from the primary variant: plain string
errors take the short path `"{error}."`; everything else renders with the
`[ERROR]` prefix, the context message, `toString()` and the stack (an
absent stack renders as the word "undefined", as a JS template renders
`undefined`). -/
def formatError (error : JsError) (message : String) : String :=
  match error with
  | .str s => s ++ "."
  | .exn ts _ stack =>
    "[ERROR] " ++ message ++ " " ++ ts ++ ". Stack:\n" ++ jsShow stack
  | .nullish => "[ERROR] " ++ message ++ " undefined. Stack:\nundefined"

/-- Model of `Logger.#customFormat` from the primary variant, combining an
optional message and an optional eventType; JS truthiness decides the
branches, so an empty string behaves like an absent argument. -/
def customFormat (message eventType : Option String) : String :=
  if jsTruthy eventType && jsTruthy message then
    jsShow eventType ++ ": " ++ jsShow message
  else if jsTruthy message then jsShow message
  else if jsTruthy eventType then jsShow eventType
  else ""

/-- Capitalization helper of `postWebhookAlert`:
`text.charAt(0).toUpperCase() + text.slice(1)`. -/
def capitalize (s : String) : String :=
  match s.data with
  | [] => ""
  | c :: cs => String.mk (c.toUpper :: cs)

/-- Characters of an ISO timestamp before the first `T`. -/
def takeUntilT : List Char → List Char
  | [] => []
  | c :: cs => if c = 'T' then [] else c :: takeUntilT cs

/-- First component of `iso.split("T")`: the UTC calendar date part of an
ISO-8601 timestamp such as `new Date().toISOString()`. -/
def isoDatePart (iso : String) : String :=
  String.mk (takeUntilT iso.data)

/-- Model of the CloudWatch `logStreamName` closure of both variants: it
is invoked anew each time a stream name is requested, reading the current
time (`isoNow`, the value of `new Date().toISOString()` at that moment)
and returning `"{tag}-{date}"`. -/
def logStreamName (tag isoNow : String) : String :=
  tag ++ "-" ++ isoDatePart isoNow

/-- A winston transport as configured by `initializeTransports`.  The
CloudWatch `logStreamName` closure captures the tag; it is modelled by its
captured tag (`streamTag`) together with the top-level `logStreamName`
function applied at each request. -/
inductive Transport where
  | console (level : String) (colorize : Bool)
  | cloudwatch (logGroupName : String) (streamTag : String) (awsRegion : String)
      (jsonMessage : Bool) (level : String)
  | loggly (token : String) (subdomain : String) (tags : List String)
      (json : Bool) (stripColors : Bool) (level : String)
deriving DecidableEq, Repr

/-- Stream name the CloudWatch transport produces when asked at time
`isoNow`; other transports have no stream name. -/
def Transport.streamNameAt (t : Transport) (isoNow : String) : Option String :=
  match t with
  | .cloudwatch _ streamTag _ _ _ => some (logStreamName streamTag isoNow)
  | _ => none

/-- Configuration captured by the `tracesSampler` closure that
`initializeSentry` installs. -/
structure SamplerConfig where
  ignoreURLs : List String
  customURLs : List String
  tracesSampleRate : Rat
  customURLsSampleRate : Rat
deriving DecidableEq, Repr

/-- The process-wide sentry binding created by the first successful
`initializeSentry` call. -/
structure SentryBinding where
  dsn : String
  environment : Option String
  ignoreErrors : List String
  sampler : SamplerConfig
deriving DecidableEq, Repr

/-- State of a `Logger` instance (primary variant): current level, the
winston logger (modelled by its transport list; `none` before
`initializeTransports`), the webhook configuration, the tag, and the
private sentry field. -/
structure Logger where
  level : String
  logger : Option (List Transport)
  webhookUrl : Option String
  webhookColor : Option String
  tag : Option String
  sentry : Option SentryBinding
deriving DecidableEq, Repr

/-- Model of `new Logger()`: level "debug", no winston logger, no webhook
URL, sentry field null, `tag` and `webhookColor` not yet set. -/
def newLogger : Logger :=
  { level := "debug", logger := none, webhookUrl := none,
    webhookColor := none, tag := none, sentry := none }

/-- The error message thrown by guarded operations before initialization. -/
def UNINITIALIZED_ERROR : String := "Logger is not initialized"

/-- Model of `Logger.initializeTransports` from the primary variant
(`src/unnamed/part_001`): throws when `defaultLevel` or `tag` is falsy;
pushes a colorized console transport when `process.env.NODE_ENV` is
`test` or `localhost` or `forceConsole` is set, and otherwise a CloudWatch
transport whose log group is `"{tag}-{env}"` and whose stream-name closure
captures `tag`; then replaces the winston logger with one owning exactly
the pushed transports. -/
def Logger.initializeTransports (st : Logger) (env : Option String)
    (defaultLevel tag : String) (forceConsole : Bool)
    (webhookUrl : Option String) (webhookColor : String)
    (awsRegion : String) : Except String Logger :=
  if defaultLevel.isEmpty || tag.isEmpty then
    .error "defaultLevel and tag are required"
  else
    let transports :=
      if (env == some "test" || env == some "localhost") || forceConsole then
        [Transport.console defaultLevel true]
      else
        [Transport.cloudwatch (tag ++ "-" ++ jsShow env) tag awsRegion true
          defaultLevel]
    .ok { st with
          level := defaultLevel,
          webhookUrl := webhookUrl,
          webhookColor := some webhookColor,
          tag := some tag,
          logger := some transports }

/-- Model of `Logger.initializeTransports` from the older variant
(`src/lib/logger.js`): a colorized console transport alone when
`process.env.NODE_ENV` is `localhost`; otherwise a Loggly transport when
a token is given (subdomain `tag` in production, `"{env}-{tag}"`
elsewhere, tags `[tag, env]`) followed by the CloudWatch transport with
log group `"{tag}-{env}"`. -/
def Logger.initializeTransportsV0 (st : Logger) (env : Option String)
    (logglyToken : Option String) (defaultLevel tag : String) : Logger :=
  let transports :=
    if env == some "localhost" then
      [Transport.console defaultLevel true]
    else
      (if jsTruthy logglyToken then
        [Transport.loggly (jsShow logglyToken)
          (if env == some "production" then tag else jsShow env ++ "-" ++ tag)
          [tag, jsShow env] true true defaultLevel]
      else []) ++
      [Transport.cloudwatch (tag ++ "-" ++ jsShow env) tag "us-east-1" true
        defaultLevel]
  { st with level := defaultLevel, logger := some transports }

/-- The request data the `tracesSampler` callback inspects:
`context.request.url` and `context.request.method`, either possibly
absent. -/
structure SamplerContext where
  url : Option String
  method : Option String
deriving DecidableEq, Repr

/-- Does `pre` stand at the head of `l`? -/
def charsHavePre : List Char → List Char → Bool
  | [], _ => true
  | _ :: _, [] => false
  | p :: ps, h :: hs => p == h && charsHavePre ps hs

/-- Substring containment on character lists. -/
def charsContain (hay pat : List Char) : Bool :=
  match hay with
  | [] => pat.isEmpty
  | c :: t => charsHavePre pat (c :: t) || charsContain t pat

/-- Model of `url?.includes(pat)` coerced to a boolean: an absent URL
matches nothing. -/
def urlIncludes (url : Option String) (pat : String) : Bool :=
  match url with
  | none => false
  | some u => charsContain u.data pat.data

/-- Model of the `tracesSampler` callback installed by
`Logger.initializeSentry`: the skip list is `"/health"` prepended to the
configured ignore patterns; rate 0 when the URL contains a skip pattern or
the method is OPTIONS, else the custom rate when the URL contains a custom
pattern, else the default rate. -/
def tracesSampler (cfg : SamplerConfig) (ctx : SamplerContext) : Rat :=
  let skipURLs := "/health" :: cfg.ignoreURLs
  let isOptionsCall := ctx.method == some "OPTIONS"
  if skipURLs.any (fun endpoint => urlIncludes ctx.url endpoint) || isOptionsCall
  then 0
  else if cfg.customURLs.any (fun endpoint => urlIncludes ctx.url endpoint) then
    cfg.customURLsSampleRate
  else cfg.tracesSampleRate

/-- Model of `Logger.initializeSentry` from the primary variant: only when
the private sentry field is still null does it run `sentry.init` and set
the field; the resulting binding records the DSN, the environment, the
ignore list, and the configuration captured by the installed
`tracesSampler` closure.  A later call returns the state unchanged. -/
def Logger.initializeSentry (st : Logger) (env : Option String) (dsn : String)
    (ignoreErrors : List String) (tracesSampleRate : Rat)
    (ignoreURLs customURLs : List String) (customURLsSampleRate : Rat) :
    Logger :=
  if st.sentry = none then
    { st with
      sentry := some
        { dsn := dsn,
          environment := env,
          ignoreErrors := ignoreErrors,
          sampler :=
            { ignoreURLs := ignoreURLs,
              customURLs := customURLs,
              tracesSampleRate := tracesSampleRate,
              customURLsSampleRate := customURLsSampleRate } } }
  else st

/-- Effective sampling decision of the binding's installed callback. -/
def SentryBinding.sampleAt (b : SentryBinding) (ctx : SamplerContext) : Rat :=
  tracesSampler b.sampler ctx

/-- Model of `Logger.getLevel`: no initialization guard, simply returns
the current level (the `Except` mirrors the ambient possibility of a
thrown error, which this method never uses). -/
def Logger.getLevel (st : Logger) : Except String String :=
  .ok st.level

/-- A transport with its minimum level overwritten, as `setLevel` does to
every element of `logger.transports`. -/
def Transport.withLevel (level : String) : Transport → Transport
  | .console _ c => .console level c
  | .cloudwatch g s r j _ => .cloudwatch g s r j level
  | .loggly t sub tags j sc _ => .loggly t sub tags j sc level

/-- Model of `Logger.setLevel`: throws the uninitialized error before
`initializeTransports`; afterwards records the level and propagates it to
every transport. -/
def Logger.setLevel (st : Logger) (level : String) : Except String Logger :=
  if st.logger = none then .error UNINITIALIZED_ERROR
  else .ok { st with
             level := level,
             logger := st.logger.map (List.map (Transport.withLevel level)) }

/-- Observable effect of a successful leveled log call: the severity, the
message handed to winston, and the payload. -/
structure LogEffect where
  level : String
  message : String
  payload : List (String × JValue)

/-- Model of `Logger.debug`: guarded by the initialization check, then
logs the `customFormat` of message and eventType at level debug. -/
def Logger.debug (st : Logger) (message eventType : Option String)
    (payload : List (String × JValue)) : Except String LogEffect :=
  if st.logger = none then .error UNINITIALIZED_ERROR
  else .ok { level := "debug", message := customFormat message eventType,
             payload := payload }

/-- Model of `Logger.info`: guarded by the initialization check, then logs
at level info. -/
def Logger.info (st : Logger) (message eventType : Option String)
    (payload : List (String × JValue)) : Except String LogEffect :=
  if st.logger = none then .error UNINITIALIZED_ERROR
  else .ok { level := "info", message := customFormat message eventType,
             payload := payload }

/-- Model of `Logger.warn`: guarded by the initialization check, then logs
at level warn. -/
def Logger.warn (st : Logger) (message eventType : Option String)
    (payload : List (String × JValue)) : Except String LogEffect :=
  if st.logger = none then .error UNINITIALIZED_ERROR
  else .ok { level := "warn", message := customFormat message eventType,
             payload := payload }

/-- Observable effects of a successful `Logger.error` call: whether a
webhook alert was dispatched, whether the exception went to the sentry
binding, and the formatted record written to the sinks. -/
structure ErrorEffect where
  webhookPosted : Bool
  sentryCaptured : Bool
  message : String
  payload : List (String × JValue)

/-- Model of `Logger.error` from the primary variant: guarded by the
initialization check; dispatches a webhook alert when a webhook URL is
configured, captures the exception when sentry is bound, and writes the
`formatError` rendering to the sinks. -/
def Logger.error (st : Logger) (err : JsError)
    (message eventType : Option String) (payload : List (String × JValue)) :
    Except String ErrorEffect :=
  if st.logger = none then .error UNINITIALIZED_ERROR
  else .ok { webhookPosted := jsTruthy st.webhookUrl,
             sentryCaptured := st.sentry.isSome,
             message := formatError err (customFormat message eventType),
             payload := payload }

/-- One `fields` entry of the webhook attachment: title, the fixed
`short: false`, and the rendered multi-line value string. -/
structure WebhookField where
  title : String
  short : Bool
  value : String

/-- The single attachment of the webhook payload. -/
structure WebhookAttachment where
  fallback : String
  pretext : String
  color : Option String
  fields : List WebhookField

/-- An HTTP POST attempted by `postWebhookAlert`. -/
structure WebhookRequest where
  url : Option String
  attachments : List WebhookAttachment
  contentType : String

/-- Rendering of one attachment field's `value` object: for each key whose
value is neither null nor undefined, a line `*Key*: value` (the value
fenced in triple backticks when the field is marked as code), joined with
nothing in between. -/
def renderFieldValue (entries : List (String × Option String))
    (isCode : Bool) : String :=
  String.join (entries.map (fun kv =>
    match kv.2 with
    | none => ""
    | some v =>
      "*" ++ capitalize kv.1 ++ "*: "
        ++ (if isCode then "```" ++ v ++ "```" else v) ++ "\n"))

/-- The webhook request `postWebhookAlert` builds once past its early
return: the pretext from `customFormat` and the error's `toString()`, a
details block (environment in backticks, the error's message), a
payload block with the 1-space-indented JSON of the payload, and - only
when the error carries a truthy stack - a stack-trace block; posted to the
override URL if one is given (nullish coalescing), else the instance URL. -/
def buildWebhookRequest (st : Logger) (env : Option String) (err : JsError)
    (message eventType : Option String) (payload : List (String × JValue))
    (webhookUrl : Option String) : WebhookRequest :=
  let pretext := "*" ++ customFormat message eventType ++ "*\n"
    ++ err.display
  let detailsField : WebhookField :=
    { title := "Please find details below:", short := false,
      value := renderFieldValue
        [("environment", some ("`" ++ jsShow env ++ "`")),
         ("message", err.msg)] false }
  let payloadField : WebhookField :=
    { title := "Payload", short := false,
      value := renderFieldValue
        [("payload", some (jsShow (jsonStringify 1 (.jobj payload))))] true }
  let stackFields : List WebhookField :=
    if jsTruthy err.stackOf then
      [{ title := "Stack Trace", short := false,
         value := renderFieldValue [("stack", err.stackOf)] true }]
    else []
  { url := webhookUrl.orElse (fun _ => st.webhookUrl),
    attachments :=
      [{ fallback := "Alert Event", pretext := pretext,
         color := st.webhookColor,
         fields := [detailsField, payloadField] ++ stackFields }],
    contentType := "application/json" }

/-- Model of `Logger.postWebhookAlert`.  `netResult` is the outcome the
network would give the `axios.post` call.  The returned pair carries the
requests actually dispatched and the call's outcome toward its caller;
the source wraps the entire body in try/catch with an empty catch, so the
outcome component is built as `ok` whatever the body did.  When neither
the instance URL nor the override argument is truthy the body returns
before building or posting anything. -/
def Logger.postWebhookAlert (st : Logger) (env : Option String)
    (err : JsError) (message eventType : Option String)
    (payload : List (String × JValue)) (webhookUrl : Option String)
    (netResult : Except String Unit) :
    List WebhookRequest × Except String Unit :=
  let body : List WebhookRequest × Except String Unit :=
    if !jsTruthy st.webhookUrl && !jsTruthy webhookUrl then ([], .ok ())
    else
      ([buildWebhookRequest st env err message eventType payload webhookUrl],
        netResult)
  (body.1, .ok ())

/-- The `meta` local of `#formatMessage`: the winston `info` object with
the `timestamp`/`message`/`level` keys omitted. -/
def metaOf (info : List (String × JValue)) : List (String × JValue) :=
  omitKeys info ["timestamp", "message", "level"]

/-- The plain log line of `#formatMessage`:
`"{timestamp} {level}: {message}"`. -/
def baseLine (info : List (String × JValue)) : String :=
  displayProp (jsGet info "timestamp") ++ " "
    ++ displayProp (jsGet info "level") ++ ": "
    ++ displayProp (jsGet info "message")

/-- C4: `customFormat` returns `"{eventType}: {message}"` when both
optional inputs are present (truthy), the message alone when only the
message is present, the eventType alone when only the eventType is
present, and the empty string when neither is present. -/
theorem c4_customFormat_cases (m e : Option String) :
    (jsTruthy m = true → jsTruthy e = true →
      customFormat m e = jsShow e ++ ": " ++ jsShow m)
    ∧ (jsTruthy m = true → jsTruthy e = false → customFormat m e = jsShow m)
    ∧ (jsTruthy m = false → jsTruthy e = true → customFormat m e = jsShow e)
    ∧ (jsTruthy m = false → jsTruthy e = false → customFormat m e = "") := by
  refine ⟨fun hm he => ?_, fun hm he => ?_, fun hm he => ?_, fun hm he => ?_⟩ <;>
    simp [customFormat, hm, he]

/-- C4 witness: both inputs present at a concrete call. -/
theorem c4_customFormat_cases_witness :
    customFormat (some "m") (some "e") = jsShow (some "e") ++ ": " ++ jsShow (some "m") :=
  (c4_customFormat_cases (some "m") (some "e")).1 rfl rfl

/-- C5: `formatError` returns exactly `"{error}."` for a plain string
error, and otherwise `"[ERROR] {message} {error.toString()}. Stack:\n{error.stack}"`,
where an absent stack renders as the text "undefined" (the JS template
rendering of `undefined`) rather than throwing. -/
theorem c5_formatError_cases (err : JsError) (msg : String) :
    (∀ s, err = .str s → formatError err msg = s ++ ".")
    ∧ (∀ ts m stack, err = .exn ts m stack →
        formatError err msg =
          "[ERROR] " ++ msg ++ " " ++ ts ++ ". Stack:\n" ++ jsShow stack)
    ∧ (∀ ts m, err = .exn ts m none →
        formatError err msg =
          "[ERROR] " ++ msg ++ " " ++ ts ++ ". Stack:\n" ++ "undefined") := by
  refine ⟨?_, ?_, ?_⟩
  · rintro s rfl; rfl
  · rintro ts m stack rfl; rfl
  · rintro ts m rfl; rfl

/-- C5 witness: the string-error short path at a concrete call. -/
theorem c5_formatError_cases_witness :
    formatError (.str "boom") "msg" = "boom" ++ "." :=
  (c5_formatError_cases (.str "boom") "msg").1 "boom" rfl

/-- C2: the sampling policy returns 0 when the method is OPTIONS or the
URL contains (as a substring) the built-in "/health" path or any
configured ignore pattern; otherwise the custom rate when the URL contains
any custom pattern; otherwise the default rate.  The first matching rule
wins and the rules are never combined. -/
theorem c2_tracesSampler_policy (igs cus : List String) (r cr : Rat)
    (ctx : SamplerContext) :
    ((ctx.method = some "OPTIONS"
        ∨ urlIncludes ctx.url "/health" = true
        ∨ ∃ p ∈ igs, urlIncludes ctx.url p = true) →
      tracesSampler ⟨igs, cus, r, cr⟩ ctx = 0)
    ∧ (ctx.method ≠ some "OPTIONS" →
        urlIncludes ctx.url "/health" = false →
        (∀ p ∈ igs, urlIncludes ctx.url p = false) →
        (∃ p ∈ cus, urlIncludes ctx.url p = true) →
        tracesSampler ⟨igs, cus, r, cr⟩ ctx = cr)
    ∧ (ctx.method ≠ some "OPTIONS" →
        urlIncludes ctx.url "/health" = false →
        (∀ p ∈ igs, urlIncludes ctx.url p = false) →
        (∀ p ∈ cus, urlIncludes ctx.url p = false) →
        tracesSampler ⟨igs, cus, r, cr⟩ ctx = r) := by
  refine ⟨?_, ?_, ?_⟩
  · rintro (hm | hh | ⟨p, hp, hinc⟩)
    · simp [tracesSampler, List.any_cons, hm]
    · simp [tracesSampler, List.any_cons, hh]
    · have hig : (igs.any fun endpoint => urlIncludes ctx.url endpoint) = true :=
        List.any_eq_true.mpr ⟨p, hp, hinc⟩
      simp [tracesSampler, List.any_cons, hig]
  · intro hm hh hig hcu
    have hig' : (igs.any fun endpoint => urlIncludes ctx.url endpoint) = false := by
      simp only [List.any_eq_false, Bool.not_eq_true]
      exact fun p hp => hig p hp
    have hcu' : (cus.any fun endpoint => urlIncludes ctx.url endpoint) = true := by
      obtain ⟨p, hp, hpc⟩ := hcu
      exact List.any_eq_true.mpr ⟨p, hp, hpc⟩
    have hm' : (ctx.method == some "OPTIONS") = false := by
      simpa using hm
    simp [tracesSampler, List.any_cons, hh, hig', hm', hcu']
  · intro hm hh hig hcu
    have hig' : (igs.any fun endpoint => urlIncludes ctx.url endpoint) = false := by
      simp only [List.any_eq_false, Bool.not_eq_true]
      exact fun p hp => hig p hp
    have hcu' : (cus.any fun endpoint => urlIncludes ctx.url endpoint) = false := by
      simp only [List.any_eq_false, Bool.not_eq_true]
      exact fun p hp => hcu p hp
    have hm' : (ctx.method == some "OPTIONS") = false := by
      simpa using hm
    simp [tracesSampler, List.any_cons, hh, hig', hm', hcu']

/-- C2 witness: a URL containing the built-in "/health" path samples at 0
even with empty configured rule sets. -/
theorem c2_tracesSampler_policy_witness :
    tracesSampler ⟨[], ["/api"], 1/4, 1/10⟩ ⟨some "/health", some "GET"⟩ = 0 :=
  (c2_tracesSampler_policy [] ["/api"] (1/4) (1/10)
      ⟨some "/health", some "GET"⟩).1 (Or.inr (Or.inl (by decide)))

/-- Helper: an object all of whose values are `undefined` serializes to an
object with no fields at all. -/
theorem serializeObj_eq_nil_of_all_undef (l : List (String × JValue))
    (h : ∀ kv ∈ l, kv.2 = .undef) : serializeObj l = [] := by
  induction l with
  | nil => rfl
  | cons kv rest ih =>
    obtain ⟨k, v⟩ := kv
    have hv : v = .undef := h (k, v) (by simp)
    subst hv
    simpa [serializeObj, serialize] using
      ih (fun kv hkv => h kv (by simp [hkv]))

/-- C6: `formatMessage` returns exactly `"{timestamp} {level}: {message}"`
with no trailing JSON block when the payload minus the
timestamp/message/level keys serializes to an empty structure; otherwise it
appends the 2-space-indented pretty JSON of the remaining payload on a new
line; and a payload whose remaining values are all non-serializable is
treated as empty rather than failing. -/
theorem c6_formatMessage_cases (info : List (String × JValue)) :
    (jsIsEmpty ((serialize (.jobj (metaOf info))).getD .jnull) = true →
      formatMessage info = baseLine info)
    ∧ (jsIsEmpty ((serialize (.jobj (metaOf info))).getD .jnull) = false →
      formatMessage info =
        baseLine info ++ "\n" ++ jsShow (jsonStringify 2 (.jobj (metaOf info))))
    ∧ ((∀ kv ∈ metaOf info, kv.2 = .undef) →
      formatMessage info = baseLine info) := by
  have hfm : formatMessage info =
      if jsIsEmpty ((serialize (.jobj (metaOf info))).getD .jnull) then
        baseLine info
      else
        baseLine info ++ "\n" ++ jsShow (jsonStringify 2 (.jobj (metaOf info))) :=
    rfl
  refine ⟨fun h => ?_, fun h => ?_, fun h => ?_⟩
  · simp [hfm, h]
  · simp [hfm, h]
  · have hnil : serializeObj (metaOf info) = [] :=
      serializeObj_eq_nil_of_all_undef _ h
    have hempty : jsIsEmpty ((serialize (.jobj (metaOf info))).getD .jnull) = true := by
      simp [serialize, hnil, jsIsEmpty]
    simp [hfm, hempty]

/-- C6 witness: a payload holding only a non-serializable value yields the
plain line with no JSON block. -/
theorem c6_formatMessage_cases_witness :
    formatMessage [("timestamp", .jstr "2024-05-01 10:00:00"),
      ("level", .jstr "info"), ("message", .jstr "hello"),
      ("callback", .undef)] =
    baseLine [("timestamp", .jstr "2024-05-01 10:00:00"),
      ("level", .jstr "info"), ("message", .jstr "hello"),
      ("callback", .undef)] :=
  (c6_formatMessage_cases _).2.2 (by simp [metaOf, omitKeys])

/-- Helper: a successful `initializeTransports` leaves a non-null winston
logger on the instance. -/
theorem initializeTransports_logger_ne_none {st : Logger} {env : Option String}
    {dl tg : String} {fc : Bool} {wh : Option String} {wc rg : String}
    {st' : Logger}
    (h : Logger.initializeTransports st env dl tg fc wh wc rg = .ok st') :
    st'.logger ≠ none := by
  unfold Logger.initializeTransports at h
  split at h
  · exact absurd h (by simp)
  · injection h with h'
    rw [← h']
    simp

/-- C1: on an instance whose winston logger is still null (as a freshly
constructed instance's is), each of `debug`, `info`, `warn`, `error` and
`setLevel` throws the same descriptive uninitialized error; after a
successful `initializeTransports` none of them throws that error. -/
theorem c1_uninitialized_guard (st : Logger) (h : st.logger = none)
    (m e : Option String) (p : List (String × JValue)) (err : JsError)
    (lvl : String) :
    (Logger.debug st m e p = .error UNINITIALIZED_ERROR
      ∧ Logger.info st m e p = .error UNINITIALIZED_ERROR
      ∧ Logger.warn st m e p = .error UNINITIALIZED_ERROR
      ∧ Logger.error st err m e p = .error UNINITIALIZED_ERROR
      ∧ Logger.setLevel st lvl = .error UNINITIALIZED_ERROR)
    ∧ (∀ env dl tg fc wh wc rg st',
        Logger.initializeTransports st env dl tg fc wh wc rg = .ok st' →
        (Logger.debug st' m e p ≠ .error UNINITIALIZED_ERROR
          ∧ Logger.info st' m e p ≠ .error UNINITIALIZED_ERROR
          ∧ Logger.warn st' m e p ≠ .error UNINITIALIZED_ERROR
          ∧ Logger.error st' err m e p ≠ .error UNINITIALIZED_ERROR
          ∧ Logger.setLevel st' lvl ≠ .error UNINITIALIZED_ERROR)) := by
  constructor
  · exact ⟨by simp [Logger.debug, h], by simp [Logger.info, h],
      by simp [Logger.warn, h], by simp [Logger.error, h],
      by simp [Logger.setLevel, h]⟩
  · intro env dl tg fc wh wc rg st' hinit
    have hlog : st'.logger ≠ none := initializeTransports_logger_ne_none hinit
    exact ⟨by simp [Logger.debug, hlog], by simp [Logger.info, hlog],
      by simp [Logger.warn, hlog], by simp [Logger.error, hlog],
      by simp [Logger.setLevel, hlog]⟩

/-- C1 witness: the guard fires on a fresh instance and is gone after a
concrete successful initialization. -/
theorem c1_uninitialized_guard_witness :
    Logger.debug newLogger (some "m") (some "e") [] = .error UNINITIALIZED_ERROR
    ∧ Logger.debug
        { level := "warn", logger := some [Transport.console "warn" true],
          webhookUrl := none, webhookColor := some "#b52626",
          tag := some "lounge", sentry := none }
        (some "m") (some "e") [] ≠ .error UNINITIALIZED_ERROR :=
  ⟨(c1_uninitialized_guard newLogger rfl (some "m") (some "e") [] (.str "x")
      "info").1.1,
   ((c1_uninitialized_guard newLogger rfl (some "m") (some "e") [] (.str "x")
      "info").2 (some "localhost") "warn" "lounge" false none "#b52626"
      "us-east-1"
      { level := "warn", logger := some [Transport.console "warn" true],
        webhookUrl := none, webhookColor := some "#b52626",
        tag := some "lounge", sentry := none } rfl).1⟩

/-- C3: with the mandatory arguments present, `initializeTransports`
activates exactly one colorized console sink at the configured minimum
level when the environment is a designated local/test one (`test` or
`localhost`) or `forceConsole` is set; otherwise it activates the
CloudWatch sink namespaced `"{tag}-{environment}"`.  In the older variant
the console-only branch is `localhost` alone, and otherwise the
aggregation (Loggly) sink is added before CloudWatch exactly when a token
is supplied. -/
theorem c3_transport_selection (st : Logger) (env : Option String)
    (dl tg : String) (fc : Bool) (wh : Option String) (wc rg : String)
    (hdl : dl.isEmpty = false) (htg : tg.isEmpty = false) :
    ((env = some "test" ∨ env = some "localhost" ∨ fc = true) →
      Logger.initializeTransports st env dl tg fc wh wc rg = .ok
        { st with
          level := dl, webhookUrl := wh, webhookColor := some wc,
          tag := some tg, logger := some [Transport.console dl true] })
    ∧ (env ≠ some "test" → env ≠ some "localhost" → fc = false →
      Logger.initializeTransports st env dl tg fc wh wc rg = .ok
        { st with
          level := dl, webhookUrl := wh, webhookColor := some wc,
          tag := some tg,
          logger := some [Transport.cloudwatch (tg ++ "-" ++ jsShow env) tg rg
            true dl] })
    ∧ (∀ token dl0 tg0,
        (env = some "localhost" →
          (Logger.initializeTransportsV0 st env token dl0 tg0).logger
            = some [Transport.console dl0 true])
        ∧ (env ≠ some "localhost" → jsTruthy token = true →
          (Logger.initializeTransportsV0 st env token dl0 tg0).logger
            = some [Transport.loggly (jsShow token)
                (if env = some "production" then tg0
                 else jsShow env ++ "-" ++ tg0)
                [tg0, jsShow env] true true dl0,
              Transport.cloudwatch (tg0 ++ "-" ++ jsShow env) tg0 "us-east-1"
                true dl0])
        ∧ (env ≠ some "localhost" → jsTruthy token = false →
          (Logger.initializeTransportsV0 st env token dl0 tg0).logger
            = some [Transport.cloudwatch (tg0 ++ "-" ++ jsShow env) tg0
                "us-east-1" true dl0])) := by
  refine ⟨?_, ?_, ?_⟩
  · intro hloc
    have hcond : ((env == some "test" || env == some "localhost") || fc) = true := by
      rcases hloc with h | h | h <;> simp [h]
    simp [Logger.initializeTransports, hdl, htg, hcond]
  · intro h1 h2 h3
    have h1' : (env == some "test") = false := by simpa using h1
    have h2' : (env == some "localhost") = false := by simpa using h2
    simp [Logger.initializeTransports, hdl, htg, h1', h2', h3]
  · intro token dl0 tg0
    refine ⟨?_, ?_, ?_⟩
    · intro h
      simp [Logger.initializeTransportsV0, h]
    · intro h htok
      have h' : (env == some "localhost") = false := by simpa using h
      by_cases hp : env = some "production" <;>
        simp [Logger.initializeTransportsV0, h', htok, hp]
    · intro h htok
      have h' : (env == some "localhost") = false := by simpa using h
      simp [Logger.initializeTransportsV0, h', htok]

/-- C3 witness: the end-to-end localhost scenario at concrete arguments,
where only the console sink is active despite supplied cloud config. -/
theorem c3_transport_selection_witness :
    Logger.initializeTransports newLogger (some "localhost") "warn" "lounge"
      false (some "https://hooks.example/x") "#b52626" "eu-west-1" = .ok
      { newLogger with
        level := "warn", webhookUrl := some "https://hooks.example/x",
        webhookColor := some "#b52626", tag := some "lounge",
        logger := some [Transport.console "warn" true] } :=
  (c3_transport_selection newLogger (some "localhost") "warn" "lounge" false
      (some "https://hooks.example/x") "#b52626" "eu-west-1" rfl rfl).1
    (Or.inr (Or.inl rfl))

/-- C7: `initializeSentry` is first-write-wins: the first call leaves a
non-null binding, and a second call - whatever its DSN or options - leaves
the whole state exactly as the first call left it.  On a fresh instance
the first call records the binding whose installed tracing decision
callback is the sampling-policy function, and, even when the caller
supplies no explicit ignore list, that callback returns 0 on any URL
containing the built-in health-check path. -/
theorem c7_sentry_first_write_wins (st : Logger) (env env2 : Option String)
    (dsn dsn2 : String) (ie ie2 : List String) (r r2 : Rat)
    (ig cu ig2 cu2 : List String) (cr cr2 : Rat) :
    (Logger.initializeSentry st env dsn ie r ig cu cr).sentry ≠ none
    ∧ Logger.initializeSentry
        (Logger.initializeSentry st env dsn ie r ig cu cr)
        env2 dsn2 ie2 r2 ig2 cu2 cr2
      = Logger.initializeSentry st env dsn ie r ig cu cr
    ∧ (st.sentry = none →
        (Logger.initializeSentry st env dsn ie r [] cu cr).sentry = some
          { dsn := dsn, environment := env, ignoreErrors := ie,
            sampler :=
              { ignoreURLs := [], customURLs := cu,
                tracesSampleRate := r, customURLsSampleRate := cr } })
    ∧ (∀ (b : SentryBinding) (ctx : SamplerContext),
        b.sampleAt ctx = tracesSampler b.sampler ctx)
    ∧ (∀ ctx : SamplerContext, urlIncludes ctx.url "/health" = true →
        SentryBinding.sampleAt
          { dsn := dsn, environment := env, ignoreErrors := ie,
            sampler :=
              { ignoreURLs := [], customURLs := cu,
                tracesSampleRate := r, customURLsSampleRate := cr } } ctx
          = 0) := by
  refine ⟨?_, ?_, fun h => ?_, fun b ctx => rfl, fun ctx hh => ?_⟩
  · by_cases hst : st.sentry = none <;> simp [Logger.initializeSentry, hst]
  · by_cases hst : st.sentry = none <;> simp [Logger.initializeSentry, hst]
  · simp [Logger.initializeSentry, h]
  · simp [SentryBinding.sampleAt, tracesSampler, List.any_cons, hh]

/-- C7 witness: a fresh instance's first call records the binding, and its
callback denies a health-check URL with no explicit ignore list given. -/
theorem c7_sentry_first_write_wins_witness :
    (Logger.initializeSentry newLogger (some "production") "dsn-a" [] (1/4)
        [] [] (1/10)).sentry = some
      { dsn := "dsn-a", environment := some "production", ignoreErrors := [],
        sampler :=
          { ignoreURLs := [], customURLs := [],
            tracesSampleRate := 1/4, customURLsSampleRate := 1/10 } }
    ∧ SentryBinding.sampleAt
      { dsn := "dsn-a", environment := some "production", ignoreErrors := [],
        sampler :=
          { ignoreURLs := [], customURLs := [],
            tracesSampleRate := 1/4, customURLsSampleRate := 1/10 } }
      ⟨some "/health", some "GET"⟩ = 0 :=
  ⟨(c7_sentry_first_write_wins newLogger (some "production") none "dsn-a"
      "dsn-b" [] [] (1/4) (1/2) [] [] [] [] (1/10) (1/5)).2.2.1 rfl,
   (c7_sentry_first_write_wins newLogger (some "production") none "dsn-a"
      "dsn-b" [] [] (1/4) (1/2) [] [] [] [] (1/10) (1/5)).2.2.2.2
     ⟨some "/health", some "GET"⟩ (by decide)⟩

/-- C8: `postWebhookAlert` never surfaces a failure to its caller - its
outcome is success whatever the network did - and when neither the
instance webhook URL nor the override argument is configured it resolves
without dispatching any request. -/
theorem c8_webhook_never_raises (st : Logger) (env : Option String)
    (err : JsError) (m e : Option String) (p : List (String × JValue))
    (wh : Option String) (net : Except String Unit) :
    (Logger.postWebhookAlert st env err m e p wh net).2 = .ok ()
    ∧ (st.webhookUrl = none → wh = none →
        Logger.postWebhookAlert st env err m e p wh net = ([], .ok ())) := by
  constructor
  · rfl
  · intro h1 h2
    simp [Logger.postWebhookAlert, h1, h2, jsTruthy]

/-- C8 witness: a network failure is swallowed when a URL is configured,
and with no URL at all the call resolves with no request dispatched. -/
theorem c8_webhook_never_raises_witness :
    (Logger.postWebhookAlert
        { newLogger with webhookUrl := some "https://hooks.example/x" }
        (some "production") (.str "boom") (some "m") none [] none
        (.error "ECONNRESET")).2 = .ok ()
    ∧ Logger.postWebhookAlert newLogger (some "production") (.str "boom")
        (some "m") none [] none (.error "ECONNRESET") = ([], .ok ()) :=
  ⟨(c8_webhook_never_raises
      { newLogger with webhookUrl := some "https://hooks.example/x" }
      (some "production") (.str "boom") (some "m") none [] none
      (.error "ECONNRESET")).1,
   (c8_webhook_never_raises newLogger (some "production") (.str "boom")
      (some "m") none [] none (.error "ECONNRESET")).2 rfl rfl⟩

/-- C9: the CloudWatch sink's stream name is recomputed from the clock at
every request as `"{tag}-{UTC date}"` - so it differs across dates rather
than being fixed at startup - and the transport created by a
production-like `initializeTransports` call carries the tag that the
stream-name closure captured; with tag "lounge" on 2024-05-01 the stream
name is "lounge-2024-05-01". -/
theorem c9_stream_name_by_date (tag : String) :
    (∀ (g r : String) (j : Bool) (l iso : String),
      Transport.streamNameAt (Transport.cloudwatch g tag r j l) iso
        = some (logStreamName tag iso))
    ∧ (∀ iso, logStreamName tag iso = tag ++ "-" ++ isoDatePart iso)
    ∧ logStreamName "lounge" "2024-05-01T00:00:00.000Z" = "lounge-2024-05-01"
    ∧ logStreamName "lounge" "2024-05-01T00:00:00.000Z"
        ≠ logStreamName "lounge" "2024-05-02T00:00:00.000Z"
    ∧ (∀ (st : Logger) (env : Option String) (dl : String)
        (wh : Option String) (wc rg : String) (st' : Logger),
        dl.isEmpty = false → tag.isEmpty = false →
        env ≠ some "test" → env ≠ some "localhost" →
        Logger.initializeTransports st env dl tag false wh wc rg = .ok st' →
        st'.logger = some [Transport.cloudwatch (tag ++ "-" ++ jsShow env) tag
          rg true dl]) := by
  refine ⟨fun g r j l iso => rfl, fun iso => rfl, by decide, by decide, ?_⟩
  intro st env dl wh wc rg st' hdl htg h1 h2 hinit
  have h1' : (env == some "test") = false := by simpa using h1
  have h2' : (env == some "localhost") = false := by simpa using h2
  simp [Logger.initializeTransports, hdl, htg, h1', h2'] at hinit
  subst hinit
  simp

/-- C9 witness: the production scenario with tag "lounge" and region
defaults, stream name computed at the example date. -/
theorem c9_stream_name_by_date_witness :
    logStreamName "lounge" "2024-05-01T00:00:00.000Z" = "lounge-2024-05-01"
    ∧ ({ level := "info",
         logger := some [Transport.cloudwatch "lounge-production" "lounge"
           "us-east-1" true "info"],
         webhookUrl := none, webhookColor := some "#b52626",
         tag := some "lounge", sentry := none } : Logger).logger
      = some [Transport.cloudwatch ("lounge" ++ "-" ++ jsShow (some "production"))
          "lounge" "us-east-1" true "info"] :=
  ⟨(c9_stream_name_by_date "lounge").2.2.1,
   (c9_stream_name_by_date "lounge").2.2.2.2 newLogger (some "production")
     "info" none "#b52626" "us-east-1"
     { level := "info",
       logger := some [Transport.cloudwatch "lounge-production" "lounge"
         "us-east-1" true "info"],
       webhookUrl := none, webhookColor := some "#b52626",
       tag := some "lounge", sentry := none }
     rfl rfl (by decide) (by decide) rfl⟩

/-- C10: `getLevel` carries no initialization guard: on every instance,
including one whose winston logger is still null, it returns the current
level without raising, and on a freshly constructed instance that level is
"debug". -/
theorem c10_getLevel_unguarded (st : Logger) :
    Logger.getLevel st = .ok st.level
    ∧ (st.logger = none → Logger.getLevel st = .ok st.level)
    ∧ Logger.getLevel newLogger = .ok "debug" :=
  ⟨rfl, fun _ => rfl, rfl⟩

/-- C10 witness: the fresh instance, which has no transports yet, still
answers with its level. -/
theorem c10_getLevel_unguarded_witness :
    Logger.getLevel newLogger = .ok newLogger.level :=
  (c10_getLevel_unguarded newLogger).2.1 rfl
